import Mathlib

/-!
Verification of the ManusAI browser-automation agent.

This file gives a shallow embedding of the agent's adaptive browser-action
loop and its helpers, translated from `agent.py`, `browser_executor.py` and
`utils.py`:

* string utilities and `clean_search_query` (from
  `BrowserExecutor._clean_search_query`);
* the action data model (the action dictionaries passed between the agent,
  the executor and the AI page-analysis adapter);
* `get_ai_page_analysis` (from `utils.get_ai_page_analysis`) and
  `analyze_page_for_next_action` (from
  `BrowserExecutor.analyze_page_for_next_action`), with the external AI call
  modelled as an environment-supplied reply;
* `execute_action` (from `BrowserExecutor.execute_action`), with the
  browser session modelled as an environment and the concrete browser
  operations recorded as a trace;
* `check_goal_completion` (from `Agent._check_goal_completion`) and the
  adaptive loop `execute_browser_actions` (from
  `Agent._execute_browser_actions`), written with explicit fuel so that all
  definitions are executable; a fuel-irrelevance lemma shows the fuel does
  not cut the loop short.

All strings in the claims are ASCII; character predicates (`isAlpha`,
`isWhitespace`) therefore agree with Python's regex classes on the inputs
considered.
-/

namespace ManusAI

/-- Lowercase a string character by character (Python `str.lower` on the
ASCII strings used by the agent). -/
def lowerStr (s : String) : String := String.mk (s.data.map Char.toLower)

/-- Whether the first list is a prefix of the second. -/
def isPrefixL : List Char → List Char → Bool
  | [], _ => true
  | _ :: _, [] => false
  | p :: ps, c :: cs => p == c && isPrefixL ps cs

/-- Whether `pat` occurs as a contiguous substring (Python's `in` on strings). -/
def containsL (pat : List Char) : List Char → Bool
  | [] => pat.isEmpty
  | c :: cs => isPrefixL pat (c :: cs) || containsL pat cs

/-- Python `pat in hay` for strings. -/
def containsSub (hay pat : String) : Bool := containsL pat.data hay.data

/-- Helper for `countWords`: count maximal non-whitespace runs; the flag says
whether the previous character was inside a word. -/
def countWordsGo : Bool → List Char → Nat
  | _, [] => 0
  | inWord, c :: cs =>
    if c.isWhitespace then countWordsGo false cs
    else (if inWord then 0 else 1) + countWordsGo true cs

/-- Python `len(s.split())`: the number of whitespace-separated words. -/
def countWords (s : String) : Nat := countWordsGo false s.data

/-- Remove every non-overlapping occurrence of the literal pattern `pat`,
scanning left to right (Python `re.sub(pat, "", s)` for a literal pattern).
The fuel is the length of the scanned list; every step consumes at least one
character, so the fuel never runs out when it starts at the list's length. -/
def removeAllGo (pat : List Char) : Nat → List Char → List Char
  | _, [] => []
  | 0, l => l
  | Nat.succ fuel, c :: cs =>
    if isPrefixL pat (c :: cs) then removeAllGo pat fuel (List.drop pat.length (c :: cs))
    else c :: removeAllGo pat fuel cs

/-- Remove every occurrence of a literal pattern. -/
def removeAllL (pat l : List Char) : List Char := removeAllGo pat l.length l

/-- After a match of the first literal of a lazy pattern `a.*?b`, find the
shortest extension ending with a match of `b`; the gap matched by `.` may not
contain a newline. Returns the remainder after the match of `b`. -/
def findRestAfter (b : List Char) : List Char → Option (List Char)
  | [] => if b.isEmpty then some [] else none
  | c :: cs =>
    if isPrefixL b (c :: cs) then some (List.drop b.length (c :: cs))
    else if c == '\n' then none
    else findRestAfter b cs

/-- Remove every non-overlapping, leftmost-shortest match of the lazy regex
`a.*?b` (Python `re.sub` semantics for the one such pattern the code uses). -/
def removeLazyGo (a b : List Char) : Nat → List Char → List Char
  | _, [] => []
  | 0, l => l
  | Nat.succ fuel, c :: cs =>
    if isPrefixL a (c :: cs) then
      match findRestAfter b (List.drop a.length (c :: cs)) with
      | some rest => removeLazyGo a b fuel rest
      | none => c :: removeLazyGo a b fuel cs
    else c :: removeLazyGo a b fuel cs

/-- Remove every match of the lazy regex `a.*?b`. -/
def removeLazyL (a b l : List Char) : List Char := removeLazyGo a b l.length l

/-- Python regex `\w` restricted to ASCII: letters, digits and underscore. -/
def isWordChar (c : Char) : Bool := c.isAlpha || c.isDigit || c == '_'

/-- Python `re.sub(r'[^\w\s$%]', '', s)`: keep only word characters,
whitespace, dollar and percent signs. -/
def keepSearchChars (l : List Char) : List Char :=
  l.filter (fun c => isWordChar c || c.isWhitespace || c == '$' || c == '%')

/-- Python `re.sub(r'\s+', ' ', s)`: collapse each maximal whitespace run to a
single space; the flag says whether the previous character was whitespace. -/
def collapseWsGo : Bool → List Char → List Char
  | _, [] => []
  | prevWs, c :: cs =>
    if c.isWhitespace then
      (if prevWs then collapseWsGo true cs else ' ' :: collapseWsGo true cs)
    else c :: collapseWsGo false cs

/-- Python `str.strip()`: drop whitespace from both ends. -/
def stripL (l : List Char) : List Char :=
  ((l.dropWhile Char.isWhitespace).reverse.dropWhile Char.isWhitespace).reverse

/-- One pattern of `_clean_search_query`'s removal list: either a literal, or
the lazy shape `a.*?b`. Patterns of the shape `lit.*?` (a lazy star at the
end) match exactly the literal, since the lazy star prefers the empty match;
they are recorded as literals. -/
inductive QueryPat where
  | lit (s : String)
  | lazy (a b : String)

/-- The `phrases_to_remove` list of `_clean_search_query`, in source order. -/
def phrases_to_remove : List QueryPat := [
  .lazy "i'll" "search for",
  .lit "let me search for",
  .lit "i will search for",
  .lit "help me find",
  .lit "please search for",
  .lit "could you search for",
  .lit "i need to find",
  .lit "i want to search for",
  .lit "search for",
  .lit "looking for",
  .lit "find",
  .lit "first,",
  .lit "then,",
  .lit "next,",
  .lit "finally,",
  .lit "i'll",
  .lit "i will",
  .lit "let's",
  .lit "let me"]

/-- Apply one removal pattern. -/
def applyPat (l : List Char) (p : QueryPat) : List Char :=
  match p with
  | .lit s => removeAllL s.data l
  | .lazy a b => removeLazyL a.data b.data l

/-- The phrase list of `_clean_search_query`'s already-clean check. -/
def instructional_phrases : List String :=
  ["i'll", "let me", "first", "then", "help me", "please", "could you"]

/-- `BrowserExecutor._clean_search_query`: return short queries with no
instructional phrase unchanged; otherwise lowercase the query, remove the
instructional patterns, drop punctuation except `$` and `%`, collapse
whitespace and strip; if fewer than 3 characters remain, fall back to the
original query with only the punctuation removal and strip applied. -/
def clean_search_query (query : String) : String :=
  if decide (countWords query ≤ 10) &&
      !(instructional_phrases.any (fun p => containsSub (lowerStr query) p)) then
    query
  else
    let cleaned := phrases_to_remove.foldl applyPat (lowerStr query).data
    let cleaned := stripL (collapseWsGo false (keepSearchChars cleaned))
    if cleaned.length < 3 then String.mk (stripL (keepSearchChars query.data))
    else String.mk cleaned

/-- A `website` dictionary attached to a Search action; each field is `none`
when the corresponding key is absent. -/
structure Website where
  url : Option String := none
  name : Option String := none
deriving DecidableEq, Repr

/-- A browser action dictionary: exactly the keys read by `execute_action`,
`_check_goal_completion` and `get_ai_page_analysis`, each `Option` marking
presence of the key. -/
structure Action where
  action_type : Option String := none
  url : Option String := none
  selector : Option String := none
  selector_type : Option String := none
  text : Option String := none
  value : Option String := none
  direction : Option String := none
  distance : Option Nat := none
  duration : Option Nat := none
  query : Option String := none
  website : Option Website := none
  description : Option String := none
deriving DecidableEq, Repr

/-- The part of a captured page state the modelled code inspects directly: its
URL and title. The captured element lists are consumed only by
environment-modelled text analytics (the AI summary and the regex listing
extraction of the final report). -/
structure PageState where
  url : String
  title : String
deriving DecidableEq, Repr

/-- The fields of the AI's parsed JSON reply that `get_ai_page_analysis`
reads. -/
structure AIObj where
  action_type : Option String := none
  description : Option String := none
  selector_strategy : Option String := none
  selector_value : Option String := none
  input_value : Option String := none
  direction : Option String := none
  distance : Option Nat := none
  duration : Option Nat := none
  url : Option String := none
deriving DecidableEq, Repr

/-- Outcome of the external AI call inside `get_ai_page_analysis`: the API
call raises, the reply is not valid JSON (`json.loads` raises
`JSONDecodeError`), the reply is JSON but not an object (the subsequent
attribute access raises, reaching the outer handler), or a parsed object. -/
inductive AIReply where
  | apiRaise
  | badJson
  | nonObject
  | obj (o : AIObj)
deriving DecidableEq, Repr

/-- The fixed fallback action: scroll down by 500 with the given
description. -/
def fallback_scroll (desc : String) : Action :=
  { action_type := some "scroll", direction := some "down", distance := some 500,
    description := some desc }

/-- `utils.get_ai_page_analysis`: convert the AI reply into the executor's
action dictionary; on an exception or unparseable JSON return the fixed
fallback scroll action. -/
def get_ai_page_analysis : AIReply → Action
  | .apiRaise =>
    fallback_scroll "Scroll down to see more content (fallback action after exception)"
  | .nonObject =>
    fallback_scroll "Scroll down to see more content (fallback action after exception)"
  | .badJson =>
    fallback_scroll "Scroll down to see more content (fallback action after JSON parse error)"
  | .obj o =>
    let base : Action :=
      { action_type := some (o.action_type.getD "scroll"),
        description := some (o.description.getD "No description provided") }
    if o.action_type == some "click" then
      let strategy := o.selector_strategy.getD "text"
      let v := o.selector_value.getD ""
      if strategy == "id" then { base with selector := some ("#" ++ v) }
      else if strategy == "class" then { base with selector := some ("." ++ v) }
      else if strategy == "xpath" then
        { base with selector := some v, selector_type := some "xpath" }
      else { base with text := some v }
    else if o.action_type == some "input" then
      let strategy := o.selector_strategy.getD "id"
      let v := o.selector_value.getD ""
      let base :=
        if strategy == "id" then { base with selector := some ("#" ++ v) }
        else if strategy == "name" then
          { base with selector := some ("[name='" ++ v ++ "']") }
        else if strategy == "placeholder" then
          { base with selector := some ("[placeholder='" ++ v ++ "']") }
        else { base with selector := some ("#" ++ v) }
      { base with value := some (o.input_value.getD "") }
    else if o.action_type == some "scroll" then
      { base with direction := some (o.direction.getD "down"),
                  distance := some (o.distance.getD 500) }
    else if o.action_type == some "wait" then
      { base with duration := some (o.duration.getD 2) }
    else if o.action_type == some "navigate" then
      { base with url := some (o.url.getD "") }
    else base

/-- Environment of one `analyze_page_for_next_action` call: the session flag,
the outcome of a session-start attempt, the page-state capture outcome and
the AI reply. -/
structure AnalyzeEnv where
  is_initialized : Bool
  init_ok : Bool
  capture : Option PageState
  reply : AIReply

/-- `BrowserExecutor.analyze_page_for_next_action`: `none` when the session
cannot start or the page-state capture fails; otherwise the AI suggestion,
replaced by the fixed fallback scroll when it carries no action kind. -/
def analyze_page_for_next_action (env : AnalyzeEnv) : Option Action :=
  if !env.is_initialized && !env.init_ok then none
  else
    match env.capture with
    | none => none
    | some _ =>
      let next := get_ai_page_analysis env.reply
      if next.action_type.isSome then some next
      else some (fallback_scroll "Scroll down to see more content (fallback action)")

/-- One concrete browser operation performed by `execute_action`, recorded at
the granularity of the executor's own method calls. -/
inductive Op where
  | screenshot (name : String)
  | navigate (url : String)
  | click (selector : String) (selectorType : String)
  | clickText (text : String)
  | tryFindSelector (selector : String)
  | fillInput (selector : String) (value : String)
  | pressEnter
  | scroll (direction : String) (distance : Nat)
  | sleep (seconds : Nat)
  | searchFill (query : String)
  | capture
deriving DecidableEq, Repr

/-- Environment of one `execute_action` call: the session flag, the outcome
of a session-start attempt, the current page URL, and which selectors a
`wait_for_selector` probe finds. The executor's `navigate`, `search`,
`click` and `fill_input` methods catch their own exceptions and return
booleans that `execute_action` ignores, so their outcomes need no field. -/
structure ExecEnv where
  is_initialized : Bool
  init_ok : Bool
  current_url : String
  find_selector : String → Bool

/-- The common search-box selector list of `execute_action`'s input branch. -/
def search_box_selectors : List String := [
  "input[type='search']",
  "input[name='search']",
  "input[placeholder*='search' i]",
  "input[placeholder*='find' i]",
  "input[placeholder*='location' i]",
  "input[placeholder*='address' i]",
  "input[placeholder*='city' i]",
  "input[placeholder*='where' i]",
  "input[aria-label*='search' i]",
  "input.search-input",
  ".search-box input",
  ".searchbox input",
  "[data-rf-test-id='search-box-input']",
  "[data-rf-test-name='search-box-input']",
  "input#search-box-input"]

/-- The input branch's probe loop: try each common search-box selector; on
the first hit fill it, press Enter and take a screenshot. Returns the
recorded operations and the result string of the successful probe, if any. -/
def try_search_selectors (env : ExecEnv) (value : String) :
    List String → List Op × Option String
  | [] => ([], none)
  | s :: rest =>
    if env.find_selector s then
      ([Op.tryFindSelector s, Op.fillInput s value, Op.pressEnter,
        Op.screenshot "input_search"],
       some ("Filled search box with value: " ++ value))
    else
      let (ops, r) := try_search_selectors env value rest
      (Op.tryFindSelector s :: ops, r)

/-- The search-engine-domain test of `execute_action`'s search branch. -/
def is_search_engine_url (u : String) : Bool :=
  containsSub u "google.com" || containsSub u "bing.com" ||
    containsSub u "yahoo.com" || containsSub u "duckduckgo.com"

/-- The recognized action kinds of `execute_action`'s dispatch. -/
def recognized_action_types : List String :=
  ["navigate", "click", "input", "scroll", "wait", "search", "capture_state"]

/-- `BrowserExecutor.execute_action`: translate one action dictionary into
browser operations, returning the human-readable result string and the trace
of performed operations. Every failure becomes a result string: the only
statement of the source body that can raise past an inner handler is the
`website['name']` access of the search branch, whose `KeyError` the outer
handler turns into an error string. -/
def execute_action (env : ExecEnv) (a : Action) : String × List Op :=
  if !env.is_initialized && !env.init_ok then ("Failed to initialize browser.", [])
  else
    let ty := lowerStr (a.action_type.getD "")
    let pre : List Op := [.screenshot ("before_" ++ ty)]
    if ty == "navigate" then
      let url := a.url.getD ""
      if url != "" then
        ("Navigated to: " ++ url, pre ++ [.navigate url, .screenshot "navigate"])
      else ("Error: No URL provided for navigation", pre)
    else if ty == "click" then
      let selector := a.selector.getD ""
      let text := a.text.getD ""
      let selectorType := a.selector_type.getD "css"
      if selector != "" then
        ("Clicked element with selector: " ++ selector,
         pre ++ [.click selector selectorType, .screenshot "click"])
      else if text != "" then
        ("Clicked element with text: " ++ text,
         pre ++ [.clickText text, .screenshot "click_text"])
      else ("Error: No selector or text provided for click action", pre)
    else if ty == "input" then
      let selector := a.selector.getD ""
      let value := a.value.getD ""
      if selector == "" then
        let (ops, r) := try_search_selectors env value search_box_selectors
        (r.getD ("Error: Could not find a search box to fill with value: " ++ value),
         pre ++ ops)
      else
        ("Filled input " ++ selector ++ " with value: " ++ value,
         pre ++ [.fillInput selector value, .pressEnter, .screenshot "input_selector"])
    else if ty == "scroll" then
      let direction := a.direction.getD "down"
      let distance := a.distance.getD 500
      ("Scrolled " ++ direction ++ " by " ++ toString distance ++ " pixels",
       pre ++ [.scroll direction distance, .screenshot "scroll"])
    else if ty == "wait" then
      let duration := a.duration.getD 2
      ("Waited for " ++ toString duration ++ " seconds", pre ++ [.sleep duration])
    else if ty == "search" then
      let q := clean_search_query (a.query.getD "")
      let noWebsite : String × List Op :=
        if is_search_engine_url env.current_url then
          ("Searched for '" ++ q ++ "' on current page",
           pre ++ [.searchFill q, .screenshot "search_current"])
        else
          ("Searched for '" ++ q ++ "' on Google",
           pre ++ [.navigate "https://www.google.com", .searchFill q,
                   .screenshot "search_google"])
      match a.website with
      | some w =>
        match w.url with
        | some u =>
          match w.name with
          | some n =>
            ("Searched for '" ++ q ++ "' on " ++ n,
             pre ++ [.navigate u, .searchFill q, .screenshot "search_website"])
          | none => ("Error executing search action: 'name'", pre ++ [.navigate u])
        | none => noWebsite
      | none => noWebsite
    else if ty == "capture_state" then
      ("Captured current page state", pre ++ [.capture])
    else
      ("Error: Unknown action type: " ++ ty, pre)

/-- `Agent._check_goal_completion`: once at least 5 actions were executed,
flag completion when two clicks happened and the last action captured state,
or when three scrolls happened and none of the last three actions was a
click. The goal description is received but never read. -/
def check_goal_completion (executed_actions : List Action) (goal_description : String) : Bool :=
  if 5 ≤ executed_actions.length then
    let action_types := executed_actions.map (fun a => a.action_type)
    (decide (2 ≤ action_types.count (some "click")) &&
       action_types.getLast? == some (some "capture_state")) ||
    (decide (3 ≤ action_types.count (some "scroll")) &&
       !((action_types.drop (action_types.length - 3)).contains (some "click")))
  else false

/-- Environment of one `_execute_browser_actions` run: how the external world
(the browser session and the AI oracles) behaves at each step. -/
structure LoopEnv where
  /-- whether `self.browser_executor` is already set when the run starts -/
  executor_exists : Bool
  /-- outcome of `initialize()` on a freshly created executor -/
  init_ok : Bool
  /-- environment of the k-th `execute_action` call (the initial action is k = 1) -/
  exec_env : Nat → ExecEnv
  /-- outcome of the loop-top `capture_page_state` call of iteration `action_count` -/
  capture_at : Nat → Option PageState
  /-- environment of the `analyze_page_for_next_action` call of iteration `action_count` -/
  analyze_at : Nat → AnalyzeEnv
  /-- outcome of the post-loop `capture_page_state` call -/
  final_capture : Option PageState
  /-- the external `summarize_search_results` oracle -/
  summarize : PageState → String
  /-- the regex price extraction over the final page's visible text -/
  prices : PageState → List String
  /-- the regex beds/baths extraction over the final page's visible text -/
  beds_baths : PageState → List String
  /-- the regex address extraction over the final page's visible text -/
  addresses : PageState → List String

/-- The real-estate domains that trigger the listing-extraction block of the
final report. -/
def real_estate_domains : List String :=
  ["redfin.com", "zillow.com", "apartments.com", "trulia.com"]

/-- The `page_info` part of the final report: empty when the final capture
failed; otherwise URL, title and AI summary, plus the property-listings block
on recognized real-estate domains. -/
def page_info_of (env : LoopEnv) : String :=
  match env.final_capture with
  | none => ""
  | some st =>
    let base := "Final URL: " ++ st.url ++ "\nPage Title: " ++ st.title ++ "\n\n" ++
      "Search Results Summary:\n" ++ env.summarize st ++ "\n\n"
    if real_estate_domains.any (fun d => containsSub st.url d) then
      let prices := env.prices st
      let bb := env.beds_baths st
      let addr := env.addresses st
      let lines := (List.range (min prices.length 5)).map (fun i =>
        "- " ++ prices.getD i "Price unknown" ++
        (if i < bb.length then ", " ++ bb.getD i "" else "") ++
        (if i < addr.length then ", " ++ addr.getD i "" else ""))
      base ++ "Property Listings Found:\n" ++ String.intercalate "\n" lines ++ "\n\n"
    else base

/-- The final report string of `_execute_browser_actions` (its closing
f-string), assembled from the executed-action descriptions, the page info and
the concatenated per-action result strings. -/
def assemble_report (env : LoopEnv) (executed : List Action) (results : List String) : String :=
  let actions_summary := String.intercalate "\n"
    (executed.map (fun a => "- " ++ a.description.getD "No description"))
  "\nBrowser Automation Results:\n\nActions Executed:\n" ++ actions_summary ++
    "\n\n" ++ page_info_of env ++ "\n\nResults:\n" ++
    String.intercalate " " results ++ "\n"

/-- The `max_actions = 20` safety limit of the adaptive loop. -/
def max_actions : Nat := 20

/-- The adaptive `while action_count < max_actions` loop of
`_execute_browser_actions`, with explicit fuel (each iteration either stops
or increments `action_count`, so fuel `max_actions - action_count` is enough;
`loop_go_fuel_irrelevant` below proves the fuel never cuts the loop short).
Per iteration: capture the page state (stop on failure), ask the AI for the
next action (stop when none), stop when the goal-completion heuristic fires,
otherwise execute the suggested action and append it to the log. -/
def loop_go (env : LoopEnv) (goal : String) :
    Nat → List Action → List String → Nat → List Action × List String × Nat
  | 0, executed, results, action_count => (executed, results, action_count)
  | Nat.succ fuel, executed, results, action_count =>
    if action_count < max_actions then
      match env.capture_at action_count with
      | none => (executed, results, action_count)
      | some _ =>
        match analyze_page_for_next_action (env.analyze_at action_count) with
        | none => (executed, results, action_count)
        | some next_action =>
          if check_goal_completion executed goal then (executed, results, action_count)
          else
            let r := (execute_action (env.exec_env (action_count + 1)) next_action).1
            loop_go env goal fuel (executed ++ [next_action]) (results ++ [r])
              (action_count + 1)
    else (executed, results, action_count)

/-- What one `_execute_browser_actions` run returns to the user and records:
the final textual report, the executed actions and their result strings. -/
structure RunResult where
  report : String
  executed : List Action
  results : List String
deriving DecidableEq, Repr

/-- `Agent._execute_browser_actions` with an explicit fuel for the adaptive
loop: reject an empty plan, start the browser session if needed, execute the
first planned action, run the adaptive loop, and assemble the final report. -/
def execute_browser_actions_fuel (env : LoopEnv) (browser_plan : List Action)
    (goal_description : String) (fuel : Nat) : RunResult :=
  match browser_plan with
  | [] => ⟨"No browser actions to execute.", [], []⟩
  | initial_action :: _ =>
    if !env.executor_exists && !env.init_ok then
      ⟨"Failed to initialize browser.", [], []⟩
    else
      let r := (execute_action (env.exec_env 1) initial_action).1
      let (executed, results, _) :=
        loop_go env goal_description fuel [initial_action] [r] 1
      ⟨assemble_report env executed results, executed, results⟩

/-- `Agent._execute_browser_actions`: the entry fuel `max_actions` exceeds
the `max_actions - 1` iterations the loop can make. -/
def execute_browser_actions (env : LoopEnv) (browser_plan : List Action)
    (goal_description : String) : RunResult :=
  execute_browser_actions_fuel env browser_plan goal_description max_actions

/-- The goal-completion condition as the spec states it: at least 5 executed
actions, and either two clicks with a final capture-state, or three scrolls
with no click among the last three actions. -/
def goal_completion_spec (executed : List Action) : Prop :=
  5 ≤ executed.length ∧
    ((2 ≤ (executed.map (fun a => a.action_type)).count (some "click") ∧
        (executed.map (fun a => a.action_type)).getLast? = some (some "capture_state")) ∨
     (3 ≤ (executed.map (fun a => a.action_type)).count (some "scroll") ∧
        some "click" ∉ (executed.map (fun a => a.action_type)).drop
          ((executed.map (fun a => a.action_type)).length - 3)))

/-- The search branch's page positioning as the spec states it: a given
target website wins, then an already-loaded search-engine page, then Google;
the search-box fill with the sanitized query comes last. -/
def search_positioning_spec (env : ExecEnv) (a : Action) : List Op :=
  let q := clean_search_query (a.query.getD "")
  let noWebsite :=
    if is_search_engine_url env.current_url then [Op.searchFill q]
    else [Op.navigate "https://www.google.com", Op.searchFill q]
  match a.website with
  | some w =>
    match w.url with
    | some u => [Op.navigate u, Op.searchFill q]
    | none => noWebsite
  | none => noWebsite

/-- The operations that position or fill the page during a search (screenshots
and delays are not part of the positioning order). -/
def is_positioning_op : Op → Bool
  | .navigate _ => true
  | .searchFill _ => true
  | _ => false

/-- A marked fallback scroll action as the spec describes it: kind scroll,
direction down, distance 500, and a description that tags it as a fallback. -/
def marked_fallback_scroll (a : Action) : Prop :=
  a.action_type = some "scroll" ∧ a.direction = some "down" ∧ a.distance = some 500 ∧
    containsSub (a.description.getD "") "fallback" = true

instance (a : Action) : Decidable (marked_fallback_scroll a) := by
  unfold marked_fallback_scroll; infer_instance

/-- Python `str.startswith`. -/
def startsWithSub (s p : String) : Bool := isPrefixL p.data s.data

/-! ### Concrete instances used by witness and counterexample statements -/

/-- A sample captured page. -/
def sample_page : PageState := ⟨"https://www.example.com", "Example Domain"⟩

/-- An initialized executor session on a non-search-engine page where no
search-box selector matches. -/
def exec_env_ok : ExecEnv := ⟨true, true, "https://www.example.com", fun _ => false⟩

/-- An executor whose session is down and cannot start. -/
def exec_env_dead : ExecEnv := ⟨false, false, "", fun _ => false⟩

/-- A plain wait action. -/
def wait_action : Action := { action_type := some "wait" }

/-- An action of an unrecognized kind. -/
def dance_action : Action := { action_type := some "dance" }

/-- The suggestion `get_ai_page_analysis` produces from a reply whose kind is
the unrecognized `"dance"`. -/
def dance_suggestion : Action :=
  { action_type := some "dance", description := some "No description provided" }

/-- An analyze call whose AI reply carries the unrecognized kind `"dance"`. -/
def analyze_env_dance : AnalyzeEnv :=
  ⟨true, true, some sample_page, .obj { action_type := some "dance" }⟩

/-- An analyze call whose AI reply is a parsed object with no action kind. -/
def analyze_env_nokind : AnalyzeEnv := ⟨true, true, some sample_page, .obj {}⟩

/-- An analyze call whose AI call raises. -/
def analyze_env_raise : AnalyzeEnv := ⟨true, true, some sample_page, .apiRaise⟩

/-- A run in which every loop-top page-state capture fails. -/
def loop_env_capture_fails : LoopEnv :=
  ⟨true, true, fun _ => exec_env_ok, fun _ => none, fun _ => analyze_env_raise,
   none, fun _ => "", fun _ => [], fun _ => [], fun _ => []⟩

/-- A run in which the AI always suggests the unrecognized `"dance"` action. -/
def loop_env_dance : LoopEnv :=
  ⟨true, true, fun _ => exec_env_ok, fun _ => some sample_page,
   fun _ => analyze_env_dance, none, fun _ => "", fun _ => [], fun _ => [],
   fun _ => []⟩

/-- A search action with a target website. -/
def search_action_website : Action :=
  { action_type := some "search", query := some "rental homes",
    website := some ⟨some "https://www.redfin.com", some "Redfin"⟩ }

/-! ### Helper lemmas -/

theorem isPrefixL_append (p l x : List Char) (h : isPrefixL p l = true) :
    isPrefixL p (l ++ x) = true := by
  induction p generalizing l with
  | nil => simp [isPrefixL]
  | cons c cs ih =>
    cases l with
    | nil => simp [isPrefixL] at h
    | cons d ds =>
      simp only [isPrefixL, Bool.and_eq_true, beq_iff_eq] at h
      simp only [List.cons_append, isPrefixL, Bool.and_eq_true, beq_iff_eq]
      exact ⟨h.1, ih ds h.2⟩

/-- Any two fuels at least `max_actions - action_count` produce the same loop
result: the fuel of `loop_go` never cuts the loop short, so the loop
terminates for every oracle behavior. -/
theorem loop_go_fuel_irrelevant (env : LoopEnv) (goal : String) :
    ∀ f g executed results c, max_actions - c ≤ f → max_actions - c ≤ g →
      loop_go env goal f executed results c = loop_go env goal g executed results c := by
  intro f
  induction f with
  | zero =>
    intro g ex rs c hf hg
    have hc : ¬ c < max_actions := by omega
    cases g with
    | zero => rfl
    | succ g' => simp [loop_go, hc]
  | succ f' ih =>
    intro g ex rs c hf hg
    cases g with
    | zero =>
      have hc : ¬ c < max_actions := by omega
      simp [loop_go, hc]
    | succ g' =>
      by_cases hc : c < max_actions
      · simp only [loop_go, hc, if_true]
        cases env.capture_at c with
        | none => rfl
        | some st =>
          cases analyze_page_for_next_action (env.analyze_at c) with
          | none => rfl
          | some na =>
            by_cases hgc : check_goal_completion ex goal
            · simp [hgc]
            · simp only [hgc, Bool.false_eq_true, if_false]
              exact ih g' _ _ (c + 1) (by omega) (by omega)
      · simp [loop_go, hc]

/-- The loop appends at most `max_actions - action_count` further actions. -/
theorem loop_go_length_le (env : LoopEnv) (goal : String) :
    ∀ f executed results c,
      (loop_go env goal f executed results c).1.length ≤
        executed.length + (max_actions - c) := by
  intro f
  induction f with
  | zero => intro ex rs c; simp [loop_go]
  | succ f' ih =>
    intro ex rs c
    by_cases hc : c < max_actions
    · simp only [loop_go, hc, if_true]
      cases env.capture_at c with
      | none => simp
      | some st =>
        cases analyze_page_for_next_action (env.analyze_at c) with
        | none => simp
        | some na =>
          by_cases hgc : check_goal_completion ex goal
          · simp [hgc]
          · simp only [hgc, Bool.false_eq_true, if_false]
            have := ih (ex ++ [na])
              (rs ++ [(execute_action (env.exec_env (c + 1)) na).1]) (c + 1)
            simp only [List.length_append, List.length_singleton] at this
            omega
    · simp [loop_go, hc]

theorem contains_eq_false_iff {α : Type _} [BEq α] [LawfulBEq α] (l : List α) (a : α) :
    l.contains a = false ↔ a ∉ l := by
  rw [List.contains, ← Bool.not_eq_true, List.elem_iff]

/-! ### Claims -/

/-- C1: for every initial action list and every behavior of the page-analysis
oracle — including one that always suggests a new valid action — the adaptive
loop of `_execute_browser_actions` terminates (running it with any fuel at
least `max_actions - 1` gives the same result, so the fuel never cuts it
short) and executes at most `max_actions + 1` actions, with
`max_actions = 20`. -/
theorem claim_C1_loop_bounded_and_terminates (env : LoopEnv) (plan : List Action)
    (goal : String) (fuel : Nat) (hfuel : max_actions - 1 ≤ fuel) :
    execute_browser_actions_fuel env plan goal fuel = execute_browser_actions env plan goal ∧
    (execute_browser_actions env plan goal).executed.length ≤ max_actions + 1 := by
  constructor
  · unfold execute_browser_actions execute_browser_actions_fuel
    cases plan with
    | nil => rfl
    | cons a0 rest =>
      by_cases hinit : (!env.executor_exists && !env.init_ok) = true
      · simp [hinit]
      · simp only [Bool.not_eq_true] at hinit
        simp only [hinit, Bool.false_eq_true, if_false]
        rw [loop_go_fuel_irrelevant env goal fuel max_actions [a0]
          [(execute_action (env.exec_env 1) a0).1] 1 (by omega) (by decide)]
  · unfold execute_browser_actions execute_browser_actions_fuel
    cases plan with
    | nil => simp
    | cons a0 rest =>
      by_cases hinit : (!env.executor_exists && !env.init_ok) = true
      · simp [hinit]
      · simp only [Bool.not_eq_true] at hinit
        simp only [hinit, Bool.false_eq_true, if_false]
        have := loop_go_length_le env goal max_actions [a0]
          [(execute_action (env.exec_env 1) a0).1] 1
        simp only [List.length_singleton] at this
        omega

/-- Witness for C1 at a concrete run and fuel. -/
theorem claim_C1_loop_bounded_and_terminates_witness :
    execute_browser_actions_fuel loop_env_dance [wait_action] "find apartments" 25 =
      execute_browser_actions loop_env_dance [wait_action] "find apartments" ∧
    (execute_browser_actions loop_env_dance [wait_action] "find apartments").executed.length ≤
      max_actions + 1 :=
  claim_C1_loop_bounded_and_terminates loop_env_dance [wait_action]
    "find apartments" 25 (by decide)

/-- C2: for every action of every kind, when the browser session is down and
cannot start, `execute_action` returns the session-init-failure result string
and performs no browser operation; the embedding is total, so no exception
crosses the executor boundary. -/
theorem claim_C2_session_init_failure (env : ExecEnv) (a : Action)
    (h1 : env.is_initialized = false) (h2 : env.init_ok = false) :
    execute_action env a = ("Failed to initialize browser.", []) := by
  unfold execute_action
  simp [h1, h2]

/-- Witness for C2 at a concrete dead session and action. -/
theorem claim_C2_session_init_failure_witness :
    execute_action exec_env_dead wait_action = ("Failed to initialize browser.", []) :=
  claim_C2_session_init_failure exec_env_dead wait_action rfl rfl

/-- C6: `_clean_search_query` returns every query of at most 10 words that
contains no instructional phrase unchanged. -/
theorem claim_C6_clean_query_unchanged (q : String)
    (h1 : countWords q ≤ 10)
    (h2 : ∀ p ∈ instructional_phrases, containsSub (lowerStr q) p = false) :
    clean_search_query q = q := by
  unfold clean_search_query
  have hany : (instructional_phrases.any fun p => containsSub (lowerStr q) p) = false := by
    simp only [List.any_eq_false]
    intro p hp
    simp [h2 p hp]
  simp [hany, h1]

/-- Witness for C6: the claim's concrete clean query is returned exactly. -/
theorem claim_C6_clean_query_unchanged_witness :
    clean_search_query "software engineer jobs Seattle" = "software engineer jobs Seattle" :=
  claim_C6_clean_query_unchanged "software engineer jobs Seattle" (by decide)
    (by decide)

/-- C3: the goal-completion heuristic fires exactly when at least 5 actions
were executed and either two clicks happened with a final capture-state, or
three scrolls happened with no click among the last three actions; in
particular it is false on every list shorter than 5. -/
theorem claim_C3_goal_completion_characterization (executed : List Action) (goal : String) :
    check_goal_completion executed goal = true ↔ goal_completion_spec executed := by
  unfold check_goal_completion goal_completion_spec
  by_cases h5 : 5 ≤ executed.length
  · simp only [h5, if_true, true_and, Bool.or_eq_true, Bool.and_eq_true,
      decide_eq_true_eq, beq_iff_eq, Bool.not_eq_true', contains_eq_false_iff]
  · simp [h5]

/-- C4 counterexample: on a parsed oracle reply that is an object with no
recognizable action kind, the adapter does not return the fixed marked
fallback `Scroll{down, 500}`: it returns an action whose kind defaults to
scroll but that has no direction, no distance and no fallback marker in its
description. -/
theorem claim_C4_counterexample :
    analyze_page_for_next_action analyze_env_nokind =
      some { action_type := some "scroll", description := some "No description provided" } ∧
    ¬ marked_fallback_scroll ((analyze_page_for_next_action analyze_env_nokind).getD {}) := by
  decide

/-- C4 (amended): when the AI page-analysis call raises or its reply is
unparseable (invalid JSON, or JSON that is not an object) and the page-state
capture succeeded, `analyze_page_for_next_action` returns — never `none`,
never an exception — the fixed fallback scroll-down-500 action marked as a
fallback in its description. -/
theorem claim_C4_oracle_failure_fallback (env : AnalyzeEnv) (st : PageState)
    (hcap : env.capture = some st)
    (hinit : env.is_initialized = true ∨ env.init_ok = true)
    (hrep : env.reply = .apiRaise ∨ env.reply = .badJson ∨ env.reply = .nonObject) :
    ∃ a, analyze_page_for_next_action env = some a ∧ marked_fallback_scroll a := by
  unfold analyze_page_for_next_action
  have hg : (!env.is_initialized && !env.init_ok) = false := by
    rcases hinit with h | h <;> simp [h]
  rw [hg]
  simp only [Bool.false_eq_true, if_false, hcap]
  rcases hrep with h | h | h <;> rw [h] <;> exact ⟨_, rfl, by decide⟩

/-- Witness for C4 (amended) at a concrete raising oracle. -/
theorem claim_C4_oracle_failure_fallback_witness :
    ∃ a, analyze_page_for_next_action analyze_env_raise = some a ∧ marked_fallback_scroll a :=
  claim_C4_oracle_failure_fallback analyze_env_raise sample_page rfl (Or.inl rfl)
    (Or.inl rfl)

/-- C5 counterexample: the sanitized output of the claim's input is
lowercased, so it does not contain the capitalized substring `"New York"`. -/
theorem claim_C5_counterexample :
    containsSub (clean_search_query "I'll search for rental apartments in New York under $3000")
      "New York" = false := by
  decide

/-- C5 (amended): sanitizing the claim's input yields the lowercased query
with the instructional prefix removed: it contains `"rental apartments"`,
`"new york"` and `"$3000"`, and contains neither `"I'll"` nor `"i'll"` nor
`"search for"`. -/
theorem claim_C5_sanitization_on_example :
    clean_search_query "I'll search for rental apartments in New York under $3000" =
      "rental apartments in new york under $3000" ∧
    containsSub (clean_search_query "I'll search for rental apartments in New York under $3000")
      "rental apartments" = true ∧
    containsSub (clean_search_query "I'll search for rental apartments in New York under $3000")
      "new york" = true ∧
    containsSub (clean_search_query "I'll search for rental apartments in New York under $3000")
      "$3000" = true ∧
    containsSub (clean_search_query "I'll search for rental apartments in New York under $3000")
      "I'll" = false ∧
    containsSub (clean_search_query "I'll search for rental apartments in New York under $3000")
      "i'll" = false ∧
    containsSub (clean_search_query "I'll search for rental apartments in New York under $3000")
      "search for" = false := by
  decide

theorem count_cons_replicate_le_one {α : Type _} [BEq α] [LawfulBEq α] (a b x : α) (k : Nat)
    (h : b ≠ x) : (a :: List.replicate k b).count x ≤ 1 := by
  rw [List.count_cons, List.count_replicate]
  have hbx : ¬ (b = x) := h
  simp [hbx]
  split <;> simp

theorem unrecognized_kinds (t : String)
    (h : recognized_action_types.contains (lowerStr t) = false) :
    t ≠ "click" ∧ t ≠ "scroll" := by
  constructor <;> rintro rfl <;> revert h <;> decide

/-- An executed log consisting of one initial action followed by copies of an
action that is neither a click nor a scroll never satisfies the
goal-completion heuristic. -/
theorem check_goal_completion_unknown (a0 u : Action) (goal : String) (k : Nat)
    (hc : u.action_type ≠ some "click") (hs : u.action_type ≠ some "scroll") :
    check_goal_completion (a0 :: List.replicate k u) goal = false := by
  unfold check_goal_completion
  by_cases h5 : 5 ≤ (a0 :: List.replicate k u).length
  · simp only [h5, if_true]
    have hmap : (a0 :: List.replicate k u).map (fun a => a.action_type) =
        a0.action_type :: List.replicate k u.action_type := by
      simp [List.map_replicate]
    rw [hmap]
    have hclick := count_cons_replicate_le_one a0.action_type u.action_type
      (some "click") k hc
    have hscroll := count_cons_replicate_le_one a0.action_type u.action_type
      (some "scroll") k hs
    have h2 : (decide (2 ≤ (a0.action_type :: List.replicate k u.action_type).count
        (some "click"))) = false := by
      simp; omega
    have h3 : (decide (3 ≤ (a0.action_type :: List.replicate k u.action_type).count
        (some "scroll"))) = false := by
      simp; omega
    rw [h2, h3]
    simp
  · rw [if_neg h5]

/-- When every capture succeeds and the oracle always suggests the same
action of an unrecognized kind, the loop runs until the step limit. -/
theorem loop_go_always_unknown (env : LoopEnv) (goal : String) (a0 u : Action) (t : String)
    (hcap : ∀ k, (env.capture_at k).isSome = true)
    (hana : ∀ k, analyze_page_for_next_action (env.analyze_at k) = some u)
    (ht : u.action_type = some t)
    (hcon : recognized_action_types.contains (lowerStr t) = false) :
    ∀ f c results, max_actions - c ≤ f → 1 ≤ c → c ≤ max_actions →
      (loop_go env goal f (a0 :: List.replicate (c - 1) u) results c).1 =
        a0 :: List.replicate (max_actions - 1) u := by
  have hkinds := unrecognized_kinds t hcon
  have hcnk : u.action_type ≠ some "click" := by
    rw [ht]; intro hEq; exact hkinds.1 (Option.some_inj.1 hEq)
  have hsnk : u.action_type ≠ some "scroll" := by
    rw [ht]; intro hEq; exact hkinds.2 (Option.some_inj.1 hEq)
  intro f
  induction f with
  | zero =>
    intro c rs hf h1 h2
    have hce : c = max_actions := by omega
    subst hce
    rfl
  | succ f' ih =>
    intro c rs hf h1 h2
    by_cases hc : c < max_actions
    · simp only [loop_go, hc, if_true]
      obtain ⟨st, hst⟩ := Option.isSome_iff_exists.1 (hcap c)
      rw [hst, hana c, check_goal_completion_unknown a0 u goal (c - 1) hcnk hsnk]
      simp only [Bool.false_eq_true, if_false]
      have hex : (a0 :: List.replicate (c - 1) u) ++ [u] =
          a0 :: List.replicate ((c + 1) - 1) u := by
        have hc1 : (c - 1) + 1 = (c + 1) - 1 := by omega
        rw [List.cons_append, ← List.replicate_succ', hc1]
      rw [hex]
      exact ih (c + 1) _ (by omega) (by omega) (by omega)
    · have hce : c = max_actions := by omega
      subst hce
      simp [loop_go, hc]

/-- C7: an action of an unrecognized kind yields the bounded error string
`"Error: Unknown action type: <kind>"` (with the operation trace holding only
the diagnostic screenshot), and the adaptive loop treats it as non-fatal:
with an oracle that always suggests an unrecognized action, the loop still
runs to the full `max_actions` step limit instead of halting. -/
theorem claim_C7_unknown_action_nonfatal :
    (∀ (env : ExecEnv) (a : Action),
        (env.is_initialized = true ∨ env.init_ok = true) →
        recognized_action_types.contains (lowerStr (a.action_type.getD "")) = false →
        execute_action env a =
          ("Error: Unknown action type: " ++ lowerStr (a.action_type.getD ""),
           [Op.screenshot ("before_" ++ lowerStr (a.action_type.getD ""))])) ∧
    (∀ (env : LoopEnv) (a0 : Action) (rest : List Action) (goal : String)
        (u : Action) (t : String),
        (env.executor_exists = true ∨ env.init_ok = true) →
        (∀ k, (env.capture_at k).isSome = true) →
        (∀ k, analyze_page_for_next_action (env.analyze_at k) = some u) →
        u.action_type = some t →
        recognized_action_types.contains (lowerStr t) = false →
        (execute_browser_actions env (a0 :: rest) goal).executed.length = max_actions) := by
  constructor
  · intro env a hinit hcon
    unfold execute_action
    have hg : (!env.is_initialized && !env.init_ok) = false := by
      rcases hinit with h | h <;> simp [h]
    rw [hg]
    have hmem := (contains_eq_false_iff _ _).1 hcon
    simp only [recognized_action_types, List.mem_cons, List.not_mem_nil, or_false,
      not_or] at hmem
    obtain ⟨hn, hc, hi, hs, hw, hse, hcs⟩ := hmem
    simp [hn, hc, hi, hs, hw, hse, hcs]
  · intro env a0 rest goal u t hinit hcap hana ht hcon
    unfold execute_browser_actions execute_browser_actions_fuel
    have hg : (!env.executor_exists && !env.init_ok) = false := by
      rcases hinit with h | h <;> simp [h]
    rw [hg]
    simp only [Bool.false_eq_true, if_false]
    have hloop := loop_go_always_unknown env goal a0 u t hcap hana ht hcon
      max_actions 1 [(execute_action (env.exec_env 1) a0).1] (by decide) (by decide)
      (by decide)
    simp only [Nat.sub_self, List.replicate_zero] at hloop
    rcases hE : loop_go env goal max_actions [a0]
      [(execute_action (env.exec_env 1) a0).1] 1 with ⟨ex, rs, cnt⟩
    rw [hE] at hloop
    simp only at hloop
    simp only [hE, hloop]
    simp [max_actions]

/-- Witness for C7: a concrete unrecognized `"dance"` action, and a concrete
run whose oracle always suggests it, executing all 20 steps. -/
theorem claim_C7_unknown_action_nonfatal_witness :
    execute_action exec_env_ok dance_action =
      ("Error: Unknown action type: " ++ lowerStr (dance_action.action_type.getD ""),
       [Op.screenshot ("before_" ++ lowerStr (dance_action.action_type.getD ""))]) ∧
    (execute_browser_actions loop_env_dance (wait_action :: []) "find apartments").executed.length =
      max_actions :=
  ⟨claim_C7_unknown_action_nonfatal.1 exec_env_ok dance_action (Or.inl rfl) (by decide),
   claim_C7_unknown_action_nonfatal.2 loop_env_dance wait_action [] "find apartments"
     dance_suggestion "dance" (Or.inl rfl) (fun _ => rfl) (fun _ => rfl) rfl (by decide)⟩

/-- C8: executing a search action positions the page in the spec's priority
order — a given well-formed target website is navigated to first; otherwise
an already-loaded recognized search-engine page is reused; otherwise Google
is loaded — and only then performs the search-box fill with the sanitized
query. -/
theorem claim_C8_search_positioning (env : ExecEnv) (a : Action)
    (hinit : env.is_initialized = true ∨ env.init_ok = true)
    (hty : lowerStr (a.action_type.getD "") = "search")
    (hweb : ∀ w, a.website = some w → w.url.isSome = true → w.name.isSome = true) :
    (execute_action env a).2.filter is_positioning_op = search_positioning_spec env a := by
  unfold execute_action search_positioning_spec
  have hg : (!env.is_initialized && !env.init_ok) = false := by
    rcases hinit with h | h <;> simp [h]
  rw [hg, hty]
  simp only [Bool.false_eq_true, if_false]
  norm_num
  cases hw : a.website with
  | none =>
    cases hse : is_search_engine_url env.current_url <;>
      simp [hse, is_positioning_op, List.filter]
  | some w =>
    cases hu : w.url with
    | none =>
      cases hse : is_search_engine_url env.current_url <;>
        simp [hu, hse, is_positioning_op, List.filter]
    | some u2 =>
      have hname := hweb w hw (by simp [hu])
      obtain ⟨n, hn⟩ := Option.isSome_iff_exists.1 hname
      simp [hu, hn, is_positioning_op, List.filter]

/-- Witness for C8 at a concrete search action with a target website. -/
theorem claim_C8_search_positioning_witness :
    (execute_action exec_env_ok search_action_website).2.filter is_positioning_op =
      search_positioning_spec exec_env_ok search_action_website :=
  claim_C8_search_positioning exec_env_ok search_action_website (Or.inl rfl) (by decide)
    (by intro w hw hu; cases hw; rfl)

/-- C9 counterexample: a run whose first loop-top page-state capture fails
(an early abort) still returns the ordinary results report; the report does
not contain `"aborted"`, so it does not distinguish the aborted run by an
`"aborted: <reason>"` marker. -/
theorem claim_C9_counterexample :
    (execute_browser_actions loop_env_capture_fails [wait_action] "find apartments").report =
      "\nBrowser Automation Results:\n\nActions Executed:\n- No description\n\n\n\nResults:\nWaited for 2 seconds\n" ∧
    containsSub
      ((execute_browser_actions loop_env_capture_fails [wait_action] "find apartments").report)
      "aborted" = false := by
  decide

/-- C9 (amended): on a mid-run page-state capture failure the loop stops and
the user still receives the final textual report, but it is the same standard
`"Browser Automation Results"` report as for a completed run (the abort
reason is only logged to the console, not stated in the report). -/
theorem claim_C9_report_always_produced (env : LoopEnv) (a0 : Action)
    (rest : List Action) (goal : String)
    (hinit : env.executor_exists = true ∨ env.init_ok = true)
    (hcap : env.capture_at 1 = none) :
    execute_browser_actions env (a0 :: rest) goal =
      ⟨assemble_report env [a0] [(execute_action (env.exec_env 1) a0).1], [a0],
        [(execute_action (env.exec_env 1) a0).1]⟩ ∧
    startsWithSub (execute_browser_actions env (a0 :: rest) goal).report
      "\nBrowser Automation Results:" = true := by
  have hg : (!env.executor_exists && !env.init_ok) = false := by
    rcases hinit with h | h <;> simp [h]
  have hloop : loop_go env goal max_actions [a0]
      [(execute_action (env.exec_env 1) a0).1] 1 = ([a0],
        [(execute_action (env.exec_env 1) a0).1], 1) := by
    show loop_go env goal (Nat.succ 19) _ _ 1 = _
    simp [loop_go, hcap, max_actions]
  have hrun : execute_browser_actions env (a0 :: rest) goal =
      ⟨assemble_report env [a0] [(execute_action (env.exec_env 1) a0).1], [a0],
        [(execute_action (env.exec_env 1) a0).1]⟩ := by
    unfold execute_browser_actions execute_browser_actions_fuel
    rw [hg]
    simp only [Bool.false_eq_true, if_false, hloop]
  refine ⟨hrun, ?_⟩
  rw [hrun]
  unfold assemble_report startsWithSub
  simp only [String.data_append]
  apply isPrefixL_append
  apply isPrefixL_append
  apply isPrefixL_append
  apply isPrefixL_append
  apply isPrefixL_append
  apply isPrefixL_append
  decide

/-- Witness for C9 (amended) at a concrete capture-failing run. -/
theorem claim_C9_report_always_produced_witness :
    execute_browser_actions loop_env_capture_fails (wait_action :: []) "find homes" =
      ⟨assemble_report loop_env_capture_fails [wait_action]
          [(execute_action (loop_env_capture_fails.exec_env 1) wait_action).1], [wait_action],
        [(execute_action (loop_env_capture_fails.exec_env 1) wait_action).1]⟩ ∧
    startsWithSub
      (execute_browser_actions loop_env_capture_fails (wait_action :: []) "find homes").report
      "\nBrowser Automation Results:" = true :=
  claim_C9_report_always_produced loop_env_capture_fails wait_action [] "find homes"
    (Or.inl rfl) rfl

/-- C10: the goal-completion heuristic never reads the goal description: any
two goal texts give the same decision on every executed-action list. -/
theorem claim_C10_goal_description_independent (executed : List Action) (g1 g2 : String) :
    check_goal_completion executed g1 = check_goal_completion executed g2 := rfl

end ManusAI
